import Mathlib

set_option maxRecDepth 8000

/-
Verification of the text-span locator and highlight-geometry engine of the
Phoenix-agent PDF viewer (frontend/app/components/CustomPDFViewer.tsx,
renderTextLayer and its callers).  Strings are embedded as List Char,
page and viewport geometry as rational numbers.
-/

namespace PhoenixHighlight

/-- Whitespace test used by the JS regex in the normalization code of
renderTextLayer; modelled by Char.isWhitespace. -/
def isWs (c : Char) : Bool := c.isWhitespace

/-- One step of collapsing whitespace runs to a single space, carrying a flag
recording whether the previous character was whitespace; embeds the JS
replacement of every whitespace run by one space. -/
def collapseAux : Bool → List Char → List Char
  | _, [] => []
  | prevWs, c :: cs =>
    if isWs c then
      if prevWs then collapseAux true cs else ' ' :: collapseAux true cs
    else
      c :: collapseAux false cs

def collapseWS (l : List Char) : List Char := collapseAux false l

/-- The trim step of the normalization (JS String.trim). -/
def trimChars (l : List Char) : List Char :=
  ((l.dropWhile isWs).reverse.dropWhile isWs).reverse

def lowerChars (l : List Char) : List Char := l.map Char.toLower

/-- Query normalization (CustomPDFViewer.tsx lines 159-163): lower-case, trim,
collapse internal whitespace runs, truncate to 100 characters. -/
def normalizeQuery (s : List Char) : List Char :=
  (collapseWS (trimChars (lowerChars s))).take 100

/-- Index at or after position k of the first occurrence of p as a contiguous
block of t; embeds JS String.indexOf. -/
def firstOccurFrom (p : List Char) : List Char → Nat → Option Nat
  | [], k => if p.isPrefixOf ([] : List Char) then some k else none
  | c :: t, k => if p.isPrefixOf (c :: t) then some k else firstOccurFrom p t (k + 1)

def firstOccur (t p : List Char) : Option Nat := firstOccurFrom p t 0

/-- JS String.split on a single space character. -/
def splitAux : List Char → List Char → List (List Char)
  | [], acc => [acc.reverse]
  | c :: cs, acc => if c = ' ' then acc.reverse :: splitAux cs [] else splitAux cs (c :: acc)

def splitWords (l : List Char) : List (List Char) := splitAux l []

/-- JS Array.join with a single space. -/
def joinWords : List (List Char) → List Char
  | [] => []
  | [w] => w
  | w :: ws => w ++ ' ' :: joinWords ws

/-- The first k whitespace-delimited words of q, joined by single spaces
(lines 210 and 216 of the source). -/
def firstWords (k : Nat) (q : List Char) : List Char :=
  joinWords ((splitWords q).take k)

/-- Tiered matcher (lines 205-218): the full phrase, then the first four words
when the query is longer than 10 characters, then the first two words when it
is longer than 5 characters; the first success wins. -/
def findSearchIndex (full q : List Char) : Option Nat :=
  match firstOccur full q with
  | some i => some i
  | none =>
    match (if 10 < q.length then firstOccur full (firstWords 4 q) else none) with
    | some i => some i
    | none => if 5 < q.length then firstOccur full (firstWords 2 q) else none

/-- A 6-entry affine transform supplied with each raw text fragment. -/
structure Affine where
  a0 : ℚ
  a1 : ℚ
  a2 : ℚ
  a3 : ℚ
  a4 : ℚ
  a5 : ℚ
deriving DecidableEq

/-- The identity transform substituted when a fragment has none (line 182). -/
def idAffine : Affine := ⟨1, 0, 0, 1, 0, 0⟩

/-- A raw fragment from the extraction collaborator: text plus an optional
transform. -/
structure RawItem where
  str : List Char
  transform : Option Affine
deriving DecidableEq

/-- fontSize derivation with JS falsy-zero fallback semantics (line 183):
the absolute value of entry 0, else of entry 3, else the default 12. -/
def itemFontSize (t : Affine) : ℚ :=
  if |t.a0| ≠ 0 then |t.a0| else if |t.a3| ≠ 0 then |t.a3| else 12

/-- A positioned text item as pushed by the index builder (lines 189-196). -/
structure TextItem where
  str : List Char
  x : ℚ
  y : ℚ
  width : ℚ
  height : ℚ
  fontSize : ℚ
deriving DecidableEq

/-- Build positioned text items, skipping empty and whitespace-only fragments
(lines 180-198); the empty-string case of the JS truthiness test is subsumed by
the trimmed-empty test. -/
def buildTextItems (raw : List RawItem) : List TextItem :=
  raw.filterMap (fun r =>
    if trimChars r.str = [] then none
    else
      let t := r.transform.getD idAffine
      let fs := itemFontSize t
      some ⟨r.str, t.a4, t.a5, (r.str.length : ℚ) * (fs * (3 / 5)), fs, fs⟩)

/-- Full page text: run texts joined with single spaces (line 202). -/
def pageFullText (items : List TextItem) : List Char :=
  joinWords (items.map TextItem.str)

/-- Lower-cased, whitespace-collapsed page text (line 203); it is not trimmed,
exactly as in the source. -/
def normalizedFullText (items : List TextItem) : List Char :=
  collapseWS (lowerChars (pageFullText items))

/-- Start-offset resolution (lines 228-239): the first item whose character
range, computed from raw item lengths plus one joining space each, contains the
search index; returns the item position and the offset inside it. -/
def findStartAux (sI : Nat) : List TextItem → Nat → Nat → Option (Nat × Nat)
  | [], _, _ => none
  | it :: rest, i, cc =>
    if cc ≤ sI ∧ sI < cc + it.str.length then some (i, sI - cc)
    else findStartAux sI rest (i + 1) (cc + it.str.length + 1)

/-- End resolution (lines 242-253): the first item whose cumulative range
reaches the end character index. -/
def findEndAux (eCI : Nat) : List TextItem → Nat → Nat → Option Nat
  | [], _, _ => none
  | it :: rest, i, cc =>
    if eCI ≤ cc + it.str.length then some i
    else findEndAux eCI rest (i + 1) (cc + it.str.length + 1)

/-- Characters (with joining spaces) before item i (lines 274-277). -/
def charCountBefore (items : List TextItem) (i : Nat) : Nat :=
  ((items.take i).map (fun it => it.str.length + 1)).sum

structure Box where
  minX : ℚ
  minY : ℚ
  maxX : ℚ
  maxY : ℚ
deriving DecidableEq

/-- End offset inside the last spanned item, clamped to its text length
(lines 278-281); kept as an integer because the JS subtraction can in principle
go negative. -/
def endOffsetInt (items : List TextItem) (eCI i : Nat) (it : TextItem) : ℤ :=
  min ((eCI : ℤ) - (charCountBefore items i : ℤ)) ((it.str.length : ℤ))

/-- x-coordinate at which the highlighted range ends inside the last spanned
item (line 282). -/
def endContribX (items : List TextItem) (eCI i : Nat) (it : TextItem) : ℚ :=
  it.x + (endOffsetInt items eCI i it : ℚ) * (it.fontSize * (3 / 5))

/-- The (itemStartX, itemEndX, low y, high y) contribution of item i to the
bounding box (lines 262-288). -/
def contribAt (items : List TextItem) (si so ei eCI i : Nat) (it : TextItem) :
    ℚ × ℚ × ℚ × ℚ :=
  ( if i = si then it.x + (so : ℚ) * (it.fontSize * (3 / 5)) else it.x
  , if i = ei then endContribX items eCI i it else it.x + it.width
  , it.y - it.fontSize
  , it.y )

/-- Aggregated bounding box over items si..ei (lines 256-289); none when the
loop body would not run, in which case the source would build a box from its
infinite initial accumulators, a situation unreachable in the pipeline. -/
def computeBox (items : List TextItem) (si so ei eCI : Nat) : Option Box :=
  match (((List.range items.length).filter
      (fun j => decide (si ≤ j) && decide (j ≤ ei))).filterMap
      (fun j => (items.get? j).map (fun it => contribAt items si so ei eCI j it))) with
  | [] => none
  | c :: rest =>
    some (rest.foldl
      (fun b d => ⟨min b.minX d.1, min b.minY d.2.2.1, max b.maxX d.2.1, max b.maxY d.2.2.2⟩)
      ⟨c.1, c.2.2.1, c.2.1, c.2.2.2⟩)

/-- A page-to-viewport transform: scale plus viewport pixel height. -/
structure Viewport where
  scale : ℚ
  height : ℚ
deriving DecidableEq

/-- Modelled from the spec: the page-to-viewport transform supplied by the
rendering collaborator (pdfjs, outside this repository's sources) is a scale
together with a vertical flip about the viewport height; its
convertToViewportRectangle applies that transform to the two corners of a
page-space rectangle and returns the four resulting coordinates unnormalized. -/
def convertToViewportRect (vp : Viewport) (x1 y1 x2 y2 : ℚ) : ℚ × ℚ × ℚ × ℚ :=
  (vp.scale * x1, vp.height - vp.scale * y1, vp.scale * x2, vp.height - vp.scale * y2)

structure HighlightRect where
  x : ℚ
  y : ℚ
  width : ℚ
  height : ℚ
deriving DecidableEq

/-- Viewport conversion and clamping of the aggregated box (lines 292-298). -/
def mkRect (vp : Viewport) (b : Box) : HighlightRect :=
  let r := convertToViewportRect vp b.minX b.minY b.maxX b.maxY
  ⟨max 0 r.1, max 0 (vp.height - r.2.2.2), max 0 (r.2.2.1 - r.1), max 0 (r.2.2.2 - r.2.1)⟩

/-- Draw-time clamping applied by the overlay renderer (lines 373-374). -/
def drawnWidth (r : HighlightRect) : ℚ := max r.width 10

/-- Draw-time clamping applied by the overlay renderer (lines 373-374). -/
def drawnHeight (r : HighlightRect) : ℚ := max r.height 8

/-- The whole text-layer highlight computation (renderTextLayer, lines 148-307):
normalization with early rejection, tiered search, span resolution, geometry.
The early-return guard on an empty normalized query is subsumed by the length
test, as in the source. -/
def renderTextLayerRects (vp : Viewport) (raw : List RawItem) (searchText : List Char) :
    List HighlightRect :=
  if (normalizeQuery searchText).length < 2 then []
  else
    match findSearchIndex (normalizedFullText (buildTextItems raw)) (normalizeQuery searchText) with
    | none => []
    | some sI =>
      match findStartAux sI (buildTextItems raw) 0 0,
            findEndAux (sI + (normalizeQuery searchText).length) (buildTextItems raw) 0 0 with
      | some (si, so), some ei =>
        match computeBox (buildTextItems raw) si so ei
            (sI + (normalizeQuery searchText).length) with
        | none => []
        | some b => [mkRect vp b]
      | _, _ => []

/-- One completed highlight computation, tagged with the generation (issue
ordinal) of the request that started it. -/
structure Completion where
  gen : Nat
  rects : List HighlightRect
deriving DecidableEq

/-- Component state after a list of completions arrive, in completion order:
the effect in renderPage (lines 102-145) ends every computation with an
unconditional state replacement (setHighlightRects, line 302), with no
generation comparison and no cleanup function, so each completion overwrites
the previous one. -/
def publishedRects (cs : List Completion) : List HighlightRect :=
  cs.foldl (fun _ c => c.rects) []

/-- Modelled from the spec: the HighlightSession missing from the source
applies results in strictly increasing generation order and discards a
completion whose generation is not newer than the last applied one. -/
def publishedRectsChecked (cs : List Completion) : List HighlightRect :=
  (cs.foldl (fun st c => if st.1 < c.gen then (c.gen, c.rects) else st)
    ((0 : Nat), ([] : List HighlightRect))).2

/-- Two runs whose first text contains a double space, so the collapsed page
text is shorter than the raw run lengths suggest. -/
def sampleRunsGap : List RawItem :=
  [⟨['a', ' ', ' ', 'b'], some idAffine⟩, ⟨['c', 'd'], some idAffine⟩]

/-- A single run holding a four-word phrase. -/
def sampleRunsTier2 : List RawItem :=
  [⟨['H','e','l','l','o',' ','W','o','r','l','d',' ','A','l','p','h','a',' ','B','e','t','a'],
    some idAffine⟩]

/-- A five-word query whose first four words match sampleRunsTier2 verbatim but
whose full text does not. -/
def sampleQueryTier2 : List Char :=
  ['h','e','l','l','o',' ','w','o','r','l','d',' ','a','l','p','h','a',' ','b','e','t','a',
   ' ','g','a','m','m','a']

/-- One small run (fontSize 1) placed at page position (5, 50). -/
def sampleRunNarrow : List RawItem :=
  [⟨['a', 'b', 'c', 'd'], some ⟨1, 0, 0, 1, 5, 50⟩⟩]

/-- A run starting with an upper-case occurrence of the two-character query. -/
def sampleRunsAB : List RawItem := [⟨['A', 'B', ' ', 'c', 'd'], some idAffine⟩]

lemma itemFontSize_pos (t : Affine) : 0 < itemFontSize t := by
  unfold itemFontSize
  split
  · rename_i h
    exact lt_of_le_of_ne (abs_nonneg t.a0) (Ne.symm h)
  · split
    · rename_i h
      exact lt_of_le_of_ne (abs_nonneg t.a3) (Ne.symm h)
    · norm_num

lemma buildTextItems_mem (raw : List RawItem) (it : TextItem)
    (h : it ∈ buildTextItems raw) :
    0 < it.fontSize ∧ it.height = it.fontSize ∧
      it.width = (it.str.length : ℚ) * (it.fontSize * (3 / 5)) := by
  unfold buildTextItems at h
  rw [List.mem_filterMap] at h
  obtain ⟨r, _, hr⟩ := h
  by_cases hc : trimChars r.str = []
  · rw [if_pos hc] at hr
    exact Option.noConfusion hr
  · rw [if_neg hc] at hr
    have hr2 := Option.some.inj hr
    subst hr2
    exact ⟨itemFontSize_pos _, rfl, rfl⟩

lemma endContribX_le (items : List TextItem) (eCI i : Nat) (it : TextItem)
    (hf : 0 ≤ it.fontSize)
    (hw : it.width = (it.str.length : ℚ) * (it.fontSize * (3 / 5))) :
    endContribX items eCI i it ≤ it.x + it.width := by
  unfold endContribX endOffsetInt
  rw [hw]
  have h1 : ((min ((eCI : ℤ) - (charCountBefore items i : ℤ)) ((it.str.length : ℤ)) : ℤ) : ℚ)
      ≤ ((it.str.length : ℤ) : ℚ) := by
    exact_mod_cast min_le_right ((eCI : ℤ) - (charCountBefore items i : ℤ)) ((it.str.length : ℤ))
  have h2 : (0 : ℚ) ≤ it.fontSize * (3 / 5) := by
    have h3 : (0 : ℚ) ≤ (3 / 5 : ℚ) := by norm_num
    exact mul_nonneg hf h3
  have h4 := mul_le_mul_of_nonneg_right h1 h2
  have h5 : ((it.str.length : ℤ) : ℚ) = (it.str.length : ℚ) := by push_cast; rfl
  rw [h5] at h4
  exact add_le_add_left h4 it.x

lemma range_filter_eq_singleton (n i : Nat) (h : i < n) :
    (List.range n).filter (fun j => decide (i ≤ j) && decide (j ≤ i)) = [i] := by
  induction n with
  | zero => exact absurd h (Nat.not_lt_zero i)
  | succ n ih =>
    rw [List.range_succ, List.filter_append]
    by_cases h2 : i < n
    · rw [ih h2]
      have he : List.filter (fun j => decide (i ≤ j) && decide (j ≤ i)) [n] = [] := by
        simp only [List.filter, decide_eq_false (show ¬ n ≤ i by omega), Bool.and_false]
      rw [he, List.append_nil]
    · have h3 : i = n := by omega
      subst h3
      have he : List.filter (fun j => decide (i ≤ j) && decide (j ≤ i)) (List.range i) = [] := by
        rw [List.filter_eq_nil_iff]
        intro a ha
        rw [List.mem_range] at ha
        simp only [Bool.and_eq_true, decide_eq_true_eq, not_and]
        omega
      rw [he, List.nil_append]
      simp only [List.filter, decide_eq_true (show i ≤ i from le_refl i), Bool.and_self]

lemma computeBox_single (items : List TextItem) (i so eCI : Nat) (it : TextItem)
    (hget : items.get? i = some it) :
    computeBox items i so i eCI =
      some ⟨it.x + (so : ℚ) * (it.fontSize * (3 / 5)), it.y - it.fontSize,
            endContribX items eCI i it, it.y⟩ := by
  have hi : i < items.length := by
    rcases List.get?_eq_some.mp hget with ⟨hlt, _⟩
    exact hlt
  unfold computeBox
  rw [range_filter_eq_singleton items.length i hi]
  simp only [List.filterMap_cons, List.filterMap_nil, hget, Option.map_some']
  simp [contribAt]

lemma mkRect_nonneg (vp : Viewport) (b : Box) :
    0 ≤ (mkRect vp b).x ∧ 0 ≤ (mkRect vp b).y ∧
      0 ≤ (mkRect vp b).width ∧ 0 ≤ (mkRect vp b).height := by
  refine ⟨?p1, ?p2, ?p3, ?p4⟩ <;> exact le_max_left 0 _

lemma renderTextLayerRects_shape (vp : Viewport) (raw : List RawItem) (q : List Char) :
    renderTextLayerRects vp raw q = [] ∨
      ∃ b, renderTextLayerRects vp raw q = [mkRect vp b] := by
  unfold renderTextLayerRects
  split
  · exact Or.inl rfl
  · split
    · exact Or.inl rfl
    · split
      · split
        · exact Or.inl rfl
        · exact Or.inr ⟨_, rfl⟩
      · exact Or.inl rfl

lemma firstOccurFrom_isSome_of_infix (p : List Char) :
    ∀ (t : List Char) (k : Nat), p <:+: t → (firstOccurFrom p t k).isSome = true := by
  intro t
  induction t with
  | nil =>
    intro k h
    rw [List.infix_nil] at h
    subst h
    simp [firstOccurFrom]
  | cons c t2 ih =>
    intro k h
    by_cases hp : p.isPrefixOf (c :: t2) = true
    · simp [firstOccurFrom, hp]
    · simp only [firstOccurFrom, hp, if_false]
      apply ih
      rcases List.infix_cons_iff.mp h with h1 | h1
      · exfalso
        apply hp
        simpa using h1
      · exact h1

/-- C1 (code bug): on runs "a(double space)b" and "cd" with query "cd", the
tiered matcher finds the phrase (search index 4, not NoMatch), yet the
published rectangle list is empty: the start-offset walk uses raw run lengths
while the search index refers to the whitespace-collapsed page text, so no run
is found to contain it and the guard silently drops the highlight.  The claim
and the spec require at least (exactly) one rectangle for a non-NoMatch span. -/
theorem match_without_rect_eval :
    findSearchIndex (normalizedFullText (buildTextItems sampleRunsGap))
      (normalizeQuery ['c', 'd']) = some 4
  ∧ findStartAux 4 (buildTextItems sampleRunsGap) 0 0 = none
  ∧ renderTextLayerRects ⟨1, 100⟩ sampleRunsGap ['c', 'd'] = [] := by
  with_unfolding_all decide

/-- C2 (code bug): with generations 1 and 2 issued in that order but completing
in the order [2, 1], the component's unconditional state replacement publishes
generation 1's stale rectangles, while the generation-checked session the spec
prescribes publishes generation 2's; the two results differ, so a stale
generation does have an observable effect in the code. -/
theorem stale_result_overwrites_newer_eval :
    publishedRects [⟨2, [⟨5, 6, 7, 8⟩]⟩, ⟨1, [⟨1, 2, 3, 4⟩]⟩] = [⟨1, 2, 3, 4⟩]
  ∧ publishedRectsChecked [⟨2, [⟨5, 6, 7, 8⟩]⟩, ⟨1, [⟨1, 2, 3, 4⟩]⟩] = [⟨5, 6, 7, 8⟩]
  ∧ ([⟨1, 2, 3, 4⟩] : List HighlightRect) ≠ [⟨5, 6, 7, 8⟩] := by
  with_unfolding_all decide

/-- C3: the tiered matcher tries tiers in fixed priority order and the first
success wins: tier 1 searches the complete normalized query; tier 2 runs only
if tier 1 fails and the query is longer than 10 characters, searching the
first four whitespace-delimited words joined by single spaces; tier 3 runs
only if tier 2 does not succeed and the query is longer than 5 characters,
searching the first two words; otherwise the result is NoMatch.  In particular
a query present verbatim is resolved by tier 1. -/
theorem tier_priority_first_success_wins (full q : List Char) :
    (firstOccur full q ≠ none → findSearchIndex full q = firstOccur full q)
  ∧ (firstOccur full q = none → 10 < q.length →
      firstOccur full (firstWords 4 q) ≠ none →
      findSearchIndex full q = firstOccur full (firstWords 4 q))
  ∧ (firstOccur full q = none →
      (10 < q.length → firstOccur full (firstWords 4 q) = none) →
      5 < q.length → findSearchIndex full q = firstOccur full (firstWords 2 q))
  ∧ (firstOccur full q = none →
      (10 < q.length → firstOccur full (firstWords 4 q) = none) →
      q.length ≤ 5 → findSearchIndex full q = none) := by
  refine ⟨?t1, ?t2, ?t3, ?t4⟩
  · intro h
    cases hfo : firstOccur full q with
    | none => exact absurd hfo h
    | some i => simp [findSearchIndex, hfo]
  · intro h1 h2 h3
    cases hf4 : firstOccur full (firstWords 4 q) with
    | none => exact absurd hf4 h3
    | some j => simp [findSearchIndex, h1, if_pos h2, hf4]
  · intro h1 h2 h3
    by_cases h10 : 10 < q.length
    · simp [findSearchIndex, h1, if_pos h10, h2 h10, if_pos h3]
    · simp [findSearchIndex, h1, if_neg h10, if_pos h3]
  · intro h1 h2 h3
    have h5 : ¬ 5 < q.length := by omega
    by_cases h10 : 10 < q.length
    · simp [findSearchIndex, h1, if_pos h10, h2 h10, if_neg h5]
    · simp [findSearchIndex, h1, if_neg h10, if_neg h5]

/-- Witness for C3: concrete inputs exercising all four conjuncts (a tier-1
hit, a tier-2 hit, a tier-3 hit, and a complete miss on a short query). -/
theorem tier_priority_first_success_wins_witness :
    findSearchIndex ['x', 'y', ' ', 'a', 'b'] ['a', 'b']
      = firstOccur ['x', 'y', ' ', 'a', 'b'] ['a', 'b']
  ∧ findSearchIndex (normalizedFullText (buildTextItems sampleRunsTier2))
      (normalizeQuery sampleQueryTier2)
      = firstOccur (normalizedFullText (buildTextItems sampleRunsTier2))
          (firstWords 4 (normalizeQuery sampleQueryTier2))
  ∧ findSearchIndex ['z', 'z', ' ', 'a', 'a', ' ', 'b', 'b']
      ['a', 'a', ' ', 'b', 'b', ' ', 'c', 'c']
      = firstOccur ['z', 'z', ' ', 'a', 'a', ' ', 'b', 'b']
          (firstWords 2 ['a', 'a', ' ', 'b', 'b', ' ', 'c', 'c'])
  ∧ findSearchIndex ['z', 'z', 'z'] ['a', 'b', 'c'] = none := by
  refine ⟨?w1, ?w2, ?w3, ?w4⟩
  · exact (tier_priority_first_success_wins ['x', 'y', ' ', 'a', 'b'] ['a', 'b']).1
      (by decide)
  · exact (tier_priority_first_success_wins
      (normalizedFullText (buildTextItems sampleRunsTier2))
      (normalizeQuery sampleQueryTier2)).2.1 (by decide) (by decide) (by decide)
  · exact (tier_priority_first_success_wins ['z', 'z', ' ', 'a', 'a', ' ', 'b', 'b']
      ['a', 'a', ' ', 'b', 'b', ' ', 'c', 'c']).2.2.1 (by decide) (by decide) (by decide)
  · exact (tier_priority_first_success_wins ['z', 'z', 'z'] ['a', 'b', 'c']).2.2.2
      (by decide) (by decide) (by decide)

/-- C4 (code bug): with run "Hello World Alpha Beta" and query
"hello world alpha beta gamma", tier 1 fails and tier 2 matches the
22-character four-word phrase at index 0, but the code computes the end
character index as start + 28 (the full normalized query length) instead of
start + 22 (the length of the substring that actually matched), so the end
scan runs off the page text and returns none, and the highlight is dropped;
the end index the claim prescribes (22) would have resolved to run 0. -/
theorem end_offset_full_query_length_eval :
    firstOccur (normalizedFullText (buildTextItems sampleRunsTier2))
      (normalizeQuery sampleQueryTier2) = none
  ∧ findSearchIndex (normalizedFullText (buildTextItems sampleRunsTier2))
      (normalizeQuery sampleQueryTier2) = some 0
  ∧ (firstWords 4 (normalizeQuery sampleQueryTier2)).length = 22
  ∧ (normalizeQuery sampleQueryTier2).length = 28
  ∧ findEndAux (0 + (normalizeQuery sampleQueryTier2).length)
      (buildTextItems sampleRunsTier2) 0 0 = none
  ∧ findEndAux (0 + (firstWords 4 (normalizeQuery sampleQueryTier2)).length)
      (buildTextItems sampleRunsTier2) 0 0 = some 0
  ∧ renderTextLayerRects ⟨1, 100⟩ sampleRunsTier2 sampleQueryTier2 = [] := by
  with_unfolding_all decide

/-- C5: a query normalizing to fewer than 2 characters always yields the empty
rectangle list before any search, for every viewport and every run list
(including the empty one); a query normalizing to exactly 2 characters that
occurs verbatim in the normalized page text is searched and resolved by
tier 1, so the minimum-length boundary is inclusive. -/
theorem short_query_rejected_two_char_searched
    (vp : Viewport) (raw : List RawItem) (q : List Char) :
    ((normalizeQuery q).length < 2 → renderTextLayerRects vp raw q = [])
  ∧ ((normalizeQuery q).length = 2 →
      normalizeQuery q <:+: normalizedFullText (buildTextItems raw) →
      findSearchIndex (normalizedFullText (buildTextItems raw)) (normalizeQuery q)
        = firstOccur (normalizedFullText (buildTextItems raw)) (normalizeQuery q)
      ∧ (firstOccur (normalizedFullText (buildTextItems raw)) (normalizeQuery q)).isSome
          = true) := by
  constructor
  · intro h
    unfold renderTextLayerRects
    rw [if_pos h]
  · intro _ hinf
    have hs : (firstOccur (normalizedFullText (buildTextItems raw))
        (normalizeQuery q)).isSome = true :=
      firstOccurFrom_isSome_of_infix (normalizeQuery q)
        (normalizedFullText (buildTextItems raw)) 0 hinf
    refine ⟨?e1, hs⟩
    obtain ⟨i, hi⟩ := Option.isSome_iff_exists.mp hs
    simp [findSearchIndex, hi]

/-- Witness for C5: the one-character query on an empty page, and the
two-character query "ab" present verbatim (as "AB") in a run. -/
theorem short_query_rejected_two_char_searched_witness :
    renderTextLayerRects ⟨1, 100⟩ [] ['a'] = []
  ∧ (findSearchIndex (normalizedFullText (buildTextItems sampleRunsAB))
        (normalizeQuery ['a', 'b'])
      = firstOccur (normalizedFullText (buildTextItems sampleRunsAB))
          (normalizeQuery ['a', 'b'])
    ∧ (firstOccur (normalizedFullText (buildTextItems sampleRunsAB))
        (normalizeQuery ['a', 'b'])).isSome = true) := by
  constructor
  · exact (short_query_rejected_two_char_searched ⟨1, 100⟩ [] ['a']).1 (by decide)
  · exact (short_query_rejected_two_char_searched ⟨1, 100⟩ sampleRunsAB ['a', 'b']).2
      (by decide) (by decide)

/-- C6: every failure mode resolves to the empty rectangle list rather than an
error: a page with no text runs, a rejected (too short) query, and a query for
which all tiers fail; the embedded engine is a total function, so no input
raises an exception. -/
theorem failure_modes_resolve_to_empty (vp : Viewport) (raw : List RawItem)
    (q : List Char) :
    (buildTextItems raw = [] → renderTextLayerRects vp raw q = [])
  ∧ ((normalizeQuery q).length < 2 → renderTextLayerRects vp raw q = [])
  ∧ (findSearchIndex (normalizedFullText (buildTextItems raw)) (normalizeQuery q) = none →
      renderTextLayerRects vp raw q = []) := by
  refine ⟨?e1, ?e2, ?e3⟩
  · intro h0
    unfold renderTextLayerRects
    split
    · rfl
    · rw [h0]
      split
      · rfl
      · rfl
  · intro h
    unfold renderTextLayerRects
    rw [if_pos h]
  · intro h
    unfold renderTextLayerRects
    split
    · rfl
    · split
      · rfl
      · rename_i sI heq
        rw [h] at heq
        exact Option.noConfusion heq

/-- Witness for C6: a whitespace-only page, a one-character query, and an
unmatched query. -/
theorem failure_modes_resolve_to_empty_witness :
    renderTextLayerRects ⟨1, 100⟩ [⟨[' '], none⟩] ['h', 'e', 'l', 'l', 'o'] = []
  ∧ renderTextLayerRects ⟨2, 50⟩ [] ['z'] = []
  ∧ renderTextLayerRects ⟨1, 100⟩ [⟨['x', 'y'], none⟩] ['a', 'b'] = [] := by
  refine ⟨?w1, ?w2, ?w3⟩
  · exact (failure_modes_resolve_to_empty ⟨1, 100⟩ [⟨[' '], none⟩]
      ['h', 'e', 'l', 'l', 'o']).1 (by decide)
  · exact (failure_modes_resolve_to_empty ⟨2, 50⟩ [] ['z']).2.1 (by decide)
  · exact (failure_modes_resolve_to_empty ⟨1, 100⟩ [⟨['x', 'y'], none⟩] ['a', 'b']).2.2
      (by decide)

/-- C7 counterexample: a match on a fontSize-1 run yields a published rectangle
of width 6/5 and height 0, both far below any minimum visible size of a few
device pixels (the renderer's draw-time minimums are 10 and 8); so the
rectangle published by the engine is not clamped to a minimum visible size. -/
theorem published_rect_below_min_size_eval :
    renderTextLayerRects ⟨1, 100⟩ sampleRunNarrow ['a', 'b'] = [⟨5, 50, 6 / 5, 0⟩]
  ∧ ((6 / 5 : ℚ) < 10 ∧ (6 / 5 : ℚ) < 2 ∧ (0 : ℚ) < 8) := by
  with_unfolding_all decide

/-- C7 (amended): every HighlightRect published by the engine has nonnegative
x, y, width and height; the minimum visible size (width 10, height 8 device
pixels) is applied by the overlay renderer at draw time, not in the published
rectangle, so every drawn rectangle is at least 10 by 8 pixels. -/
theorem published_rect_nonneg_drawn_clamped (vp : Viewport) (raw : List RawItem)
    (q : List Char) :
    (∀ r, r ∈ renderTextLayerRects vp raw q →
      0 ≤ r.x ∧ 0 ≤ r.y ∧ 0 ≤ r.width ∧ 0 ≤ r.height)
  ∧ (∀ r : HighlightRect, 10 ≤ drawnWidth r ∧ 8 ≤ drawnHeight r) := by
  constructor
  · intro r hr
    rcases renderTextLayerRects_shape vp raw q with hsh | ⟨b, hsh⟩
    · rw [hsh] at hr
      exact absurd hr (List.not_mem_nil r)
    · rw [hsh, List.mem_singleton] at hr
      subst hr
      exact mkRect_nonneg vp b
  · intro r
    exact ⟨le_max_right r.width 10, le_max_right r.height 8⟩

/-- Witness for C7 (amended) at the published rectangle of the narrow-run
match and at an all-zero rectangle for the draw-time clamp. -/
theorem published_rect_nonneg_drawn_clamped_witness :
    (0 ≤ (⟨5, 50, 6 / 5, 0⟩ : HighlightRect).x
      ∧ 0 ≤ (⟨5, 50, 6 / 5, 0⟩ : HighlightRect).y
      ∧ 0 ≤ (⟨5, 50, 6 / 5, 0⟩ : HighlightRect).width
      ∧ 0 ≤ (⟨5, 50, 6 / 5, 0⟩ : HighlightRect).height)
  ∧ (10 ≤ drawnWidth ⟨0, 0, 0, 0⟩ ∧ 8 ≤ drawnHeight ⟨0, 0, 0, 0⟩) := by
  constructor
  · exact (published_rect_nonneg_drawn_clamped ⟨1, 100⟩ sampleRunNarrow ['a', 'b']).1
      ⟨5, 50, 6 / 5, 0⟩ (by with_unfolding_all decide)
  · exact (published_rect_nonneg_drawn_clamped ⟨1, 100⟩ [] []).2 ⟨0, 0, 0, 0⟩

/-- C8: for a span resolved entirely within the single run i, the aggregated
box's x-range in page space (before the viewport transform) is contained in
that run's interval from originX to originX + width, where width is
fontSize * 0.6 * length(text). -/
theorem single_run_match_x_range_contained (raw : List RawItem) (i so eCI : Nat)
    (it : TextItem) (b : Box)
    (hget : (buildTextItems raw).get? i = some it)
    (hbox : computeBox (buildTextItems raw) i so i eCI = some b) :
    it.x ≤ b.minX ∧ b.maxX ≤ it.x + it.width := by
  have hmem : it ∈ buildTextItems raw := List.get?_mem hget
  obtain ⟨hf, _, hw⟩ := buildTextItems_mem raw it hmem
  rw [computeBox_single (buildTextItems raw) i so eCI it hget] at hbox
  have hb := Option.some.inj hbox
  subst hb
  constructor
  · have hnn : (0 : ℚ) ≤ (so : ℚ) * (it.fontSize * (3 / 5)) :=
      mul_nonneg (Nat.cast_nonneg so)
        (mul_nonneg (le_of_lt hf) (by norm_num))
    exact le_add_of_nonneg_right hnn
  · exact endContribX_le (buildTextItems raw) eCI i it (le_of_lt hf) hw

/-- Witness for C8: the narrow run with a span starting at offset 1 and ending
at character index 3 inside run 0. -/
theorem single_run_match_x_range_contained_witness :
    (⟨['a', 'b', 'c', 'd'], 5, 50, 12 / 5, 1, 1⟩ : TextItem).x
      ≤ (⟨28 / 5, 49, 34 / 5, 50⟩ : Box).minX
  ∧ (⟨28 / 5, 49, 34 / 5, 50⟩ : Box).maxX
      ≤ (⟨['a', 'b', 'c', 'd'], 5, 50, 12 / 5, 1, 1⟩ : TextItem).x
        + (⟨['a', 'b', 'c', 'd'], 5, 50, 12 / 5, 1, 1⟩ : TextItem).width :=
  single_run_match_x_range_contained sampleRunNarrow 0 1 3
    ⟨['a', 'b', 'c', 'd'], 5, 50, 12 / 5, 1, 1⟩ ⟨28 / 5, 49, 34 / 5, 50⟩
    (by with_unfolding_all decide) (by with_unfolding_all decide)

/-- C9 counterexample: a fragment with a missing transform is built with the
substituted identity transform, whose entry 0 gives fontSize 1, not the
default 12 the claim states for that case. -/
theorem missing_transform_fontsize_one_eval :
    buildTextItems [⟨['h', 'i'], none⟩] = [⟨['h', 'i'], 0, 0, 6 / 5, 1, 1⟩]
  ∧ itemFontSize idAffine = 1 ∧ ((1 : ℚ) ≠ 12) := by
  with_unfolding_all decide

/-- C9 (amended): a fragment with a missing transform gets the identity
transform substituted and hence fontSize 1; a fragment whose transform entries
0 and 3 are both zero gets the default fontSize 12; in every case each built
TextRun has strictly positive fontSize and height. -/
theorem fontsize_substitution_positive (raw : List RawItem) (t : Affine)
    (s : List Char) :
    itemFontSize idAffine = 1
  ∧ (t.a0 = 0 → t.a3 = 0 → itemFontSize t = 12)
  ∧ (trimChars s ≠ [] →
      buildTextItems [⟨s, none⟩]
        = [⟨s, 0, 0, (s.length : ℚ) * (1 * (3 / 5)), 1, 1⟩])
  ∧ (∀ it, it ∈ buildTextItems raw → 0 < it.fontSize ∧ 0 < it.height) := by
  have hone : itemFontSize idAffine = 1 := by with_unfolding_all decide
  refine ⟨hone, ?p2, ?p3, ?p4⟩
  · intro h0 h3
    unfold itemFontSize
    rw [h0, h3]
    norm_num
  · intro hs
    simp only [buildTextItems, List.filterMap_cons, List.filterMap_nil, hs, if_neg,
      if_false, Option.getD_none, hone]
    rfl
  · intro it hmem
    obtain ⟨hf, hh, _⟩ := buildTextItems_mem raw it hmem
    exact ⟨hf, hh ▸ hf⟩

/-- Witness for C9 (amended): a transform with zero entries 0 and 3, the
two-character fragment without a transform, and positivity at the built item. -/
theorem fontsize_substitution_positive_witness :
    itemFontSize ⟨0, 0, 0, 0, 7, 8⟩ = 12
  ∧ buildTextItems [⟨['h', 'i'], none⟩]
      = [⟨['h', 'i'], 0, 0, ((['h', 'i'].length : ℚ)) * (1 * (3 / 5)), 1, 1⟩]
  ∧ (0 < (⟨['h', 'i'], 0, 0, 6 / 5, 1, 1⟩ : TextItem).fontSize
      ∧ 0 < (⟨['h', 'i'], 0, 0, 6 / 5, 1, 1⟩ : TextItem).height) := by
  refine ⟨?w1, ?w2, ?w3⟩
  · exact (fontsize_substitution_positive [] ⟨0, 0, 0, 0, 7, 8⟩ []).2.1 rfl rfl
  · exact (fontsize_substitution_positive [] idAffine ['h', 'i']).2.2.1 (by decide)
  · exact (fontsize_substitution_positive [⟨['h', 'i'], none⟩] idAffine []).2.2.2
      ⟨['h', 'i'], 0, 0, 6 / 5, 1, 1⟩ (by with_unfolding_all decide)

/-- C10: the end character offset applied to the last spanned run is clamped
to that run's text length, so that run's x-end contribution never exceeds
originX + width, even when the computed end character index extends past the
end of that run's text. -/
theorem end_offset_clamped_to_run_width (raw : List RawItem) (eCI i : Nat)
    (it : TextItem) (hget : (buildTextItems raw).get? i = some it) :
    endOffsetInt (buildTextItems raw) eCI i it ≤ ((it.str.length : ℤ))
  ∧ endContribX (buildTextItems raw) eCI i it ≤ it.x + it.width := by
  have hmem : it ∈ buildTextItems raw := List.get?_mem hget
  obtain ⟨hf, _, hw⟩ := buildTextItems_mem raw it hmem
  exact ⟨min_le_right ((eCI : ℤ) - (charCountBefore (buildTextItems raw) i : ℤ))
      ((it.str.length : ℤ)),
    endContribX_le (buildTextItems raw) eCI i it (le_of_lt hf) hw⟩

/-- Witness for C10: the narrow run with an end character index of 100, far
past the 4-character run text. -/
theorem end_offset_clamped_to_run_width_witness :
    endOffsetInt (buildTextItems sampleRunNarrow) 100 0
      (⟨['a', 'b', 'c', 'd'], 5, 50, 12 / 5, 1, 1⟩ : TextItem)
      ≤ (((⟨['a', 'b', 'c', 'd'], 5, 50, 12 / 5, 1, 1⟩ : TextItem).str.length : ℤ))
  ∧ endContribX (buildTextItems sampleRunNarrow) 100 0
      (⟨['a', 'b', 'c', 'd'], 5, 50, 12 / 5, 1, 1⟩ : TextItem)
      ≤ (⟨['a', 'b', 'c', 'd'], 5, 50, 12 / 5, 1, 1⟩ : TextItem).x
        + (⟨['a', 'b', 'c', 'd'], 5, 50, 12 / 5, 1, 1⟩ : TextItem).width :=
  end_offset_clamped_to_run_width sampleRunNarrow 100 0
    ⟨['a', 'b', 'c', 'd'], 5, 50, 12 / 5, 1, 1⟩ (by with_unfolding_all decide)

end PhoenixHighlight
